import Mathlib

/-!
Formal model of the ATmega128 fan & servo controller (src/ATmega128_fan.c).

The program consists of a set of global variables, an SPI receive interrupt
handler dispatching on the received byte, and an endless main loop that polls
two buttons, advances the servo pulse width by one unit per iteration, and
recomputes the status code reported to the host.  We embed the globals (plus
the hardware registers the control logic writes) as a record `State`, the
interrupt handler as `spiReceive`/`spiISR`, and one iteration of the main
loop as `tick`.  Hardware-specific initialisation (port directions, timer
waveform modes) has no influence on the control state and is not modelled;
the relevant registers written by the control logic (OCR1A, OCR3A, the
COM3A1 and CS30 bits, the fan pin of PORTE, the three LED bits of PORTC and
the SPI data register SPDR) are modelled as record fields.
-/

set_option maxRecDepth 8192

namespace FanCtrl

/-- Status code sent to the host while the fan runs (C macro STATUS_RUNNING). -/
def STATUS_RUNNING : Nat := 222

/-- Status code sent when the fan is off, the user is ready and the servo is
centered (C macro STATUS_READY). -/
def STATUS_READY : Nat := 111

/-- Status code sent while stopped or homing (C macro STATUS_HOMING_OFF). -/
def STATUS_HOMING_OFF : Nat := 0

/-- PWM period register value for the 8 kHz fan PWM (C macro ICR_8KHZ). -/
def ICR_8KHZ : Nat := 1999

/-- Duty register value for the strongest fan output; the C source computes
`(uint16_t)(ICR_8KHZ * 0.2)` in double arithmetic, which truncates to 399,
the same value as the natural-number expression below. -/
def DUTY_LOW : Nat := ICR_8KHZ * 20 / 100

/-- Duty register value for the medium fan output: `(uint16_t)(1999 * 0.4) = 799`. -/
def DUTY_MEDIUM : Nat := ICR_8KHZ * 40 / 100

/-- Duty register value for the gentlest fan output: `(uint16_t)(1999 * 0.6) = 1199`. -/
def DUTY_HIGH : Nat := ICR_8KHZ * 60 / 100

/-- Servo pulse-width count for 170 degrees (C macro SERVO_CW_MAX). -/
def SERVO_CW_MAX : Nat := 610

/-- Servo pulse-width count for 10 degrees (C macro SERVO_CCW_MAX). -/
def SERVO_CCW_MAX : Nat := 140

/-- Servo pulse-width count for 90 degrees (C macro SERVO_CENTER). -/
def SERVO_CENTER : Nat := 375

/-- Control state of the program: the global variables of the C source plus
the hardware registers the control logic writes.  `toggle_button_pressed`
and `speed_button_pressed` are the debounce latches local to `main`. -/
structure State where
  motor_running : Bool
  speed_level : Nat
  user_ready_flag : Bool
  servo_homing_required : Bool
  servo_current_ocr : Nat
  servo_target_ocr : Nat
  current_spi_status : Nat
  spdr : Nat
  ocr1a : Nat
  ocr3a : Nat
  com3a1 : Bool
  cs30 : Bool
  fan_pwm_pin : Bool
  led_low : Bool
  led_medium : Bool
  led_high : Bool
  toggle_button_pressed : Bool
  speed_button_pressed : Bool
deriving DecidableEq

/-- Model of `update_leds`: clear the three LED bits, return at once when the
motor is stopped, otherwise light LEDs cumulatively via the switch
fall-through (case 2 also executes cases 1 and 0, case 1 also case 0). -/
def update_leds (s : State) : State :=
  let s1 := { s with led_low := false, led_medium := false, led_high := false }
  if !s1.motor_running then s1
  else if s1.speed_level = 2 then
    { s1 with led_high := true, led_medium := true, led_low := true }
  else if s1.speed_level = 1 then
    { s1 with led_medium := true, led_low := true }
  else if s1.speed_level = 0 then
    { s1 with led_low := true }
  else s1

/-- Model of `set_fan_speed(level)`: write the duty register for the level
(no write for a level outside 0..2), then refresh the LEDs. -/
def set_fan_speed (level : Nat) (s : State) : State :=
  let s1 :=
    if level = 0 then { s with ocr3a := DUTY_HIGH }
    else if level = 1 then { s with ocr3a := DUTY_MEDIUM }
    else if level = 2 then { s with ocr3a := DUTY_LOW }
    else s
  update_leds s1

/-- Model of `start_fan`: set `motor_running`, reset `speed_level` to 0,
connect the PWM output (COM3A1), apply the duty for the current (zero) level
and start the timer clock (CS30). -/
def start_fan (s : State) : State :=
  let s1 := { s with motor_running := true, speed_level := 0 }
  let s2 := { s1 with com3a1 := true }
  let s3 := set_fan_speed s2.speed_level s2
  { s3 with cs30 := true }

/-- Model of `stop_fan`: clear `motor_running`, stop the timer clock,
disconnect the PWM output, force the fan pin low, reset `speed_level` to 0
and refresh the LEDs (all off since the motor is stopped). -/
def stop_fan (s : State) : State :=
  let s1 := { s with motor_running := false, cs30 := false, com3a1 := false,
                     fan_pwm_pin := false, speed_level := 0 }
  update_leds s1

/-- Command dispatch of the SPI interrupt handler (the body of
`ISR(SPI_STC_vect)` before the final `SPDR = current_spi_status`), applied to
the received byte `b`. -/
def spiReceive (s : State) (b : Nat) : State :=
  if b = 200 then
    let s1 := if s.motor_running then stop_fan s else s
    { s1 with user_ready_flag := false, servo_homing_required := true }
  else if 10 ≤ b ∧ b ≤ 170 then
    if s.user_ready_flag && s.motor_running then
      { s with servo_target_ocr :=
          (b - 10) * (SERVO_CW_MAX - SERVO_CCW_MAX) / 160 + SERVO_CCW_MAX }
    else s
  else if b = 255 then
    if s.current_spi_status = STATUS_READY then start_fan s else s
  else s

/-- Full SPI interrupt handler: dispatch the received byte, then queue the
current status code as the reply for the next transfer. -/
def spiISR (s : State) (b : Nat) : State :=
  let s1 := spiReceive s b
  { s1 with spdr := s1.current_spi_status }

/-- Effect of a debounced toggle-button press (the body guarded by the
debounce latch in `main`): when on, turn off (stopping the fan if running)
and request homing; when off, turn on, aim the servo at the center and
request homing. -/
def togglePress (s : State) : State :=
  if s.user_ready_flag then
    let s1 := { s with user_ready_flag := false }
    let s2 := if s1.motor_running then stop_fan s1 else s1
    { s2 with servo_homing_required := true }
  else
    { s with user_ready_flag := true, servo_target_ocr := SERVO_CENTER,
             servo_homing_required := true }

/-- Toggle-button polling with its debounce latch: a press event fires only
on a low-to-high edge of the line; releasing the line clears the latch. -/
def handleToggle (s : State) (line : Bool) : State :=
  if line then
    if !s.toggle_button_pressed then
      togglePress { s with toggle_button_pressed := true }
    else s
  else { s with toggle_button_pressed := false }

/-- Speed-button polling with its debounce latch (evaluated only while the
motor runs): on an edge, increment `speed_level`, wrap values above 2 to 0
and apply the new duty value. -/
def handleSpeed (s : State) (line : Bool) : State :=
  if line then
    if !s.speed_button_pressed then
      let s1 := { s with speed_button_pressed := true }
      let newLevel := if s1.speed_level + 1 > 2 then 0 else s1.speed_level + 1
      set_fan_speed newLevel { s1 with speed_level := newLevel }
    else s
  else { s with speed_button_pressed := false }

/-- One iteration of the endless `while (1)` loop in `main`, given the levels
of the toggle and speed button lines during this iteration: poll the toggle
button; when the motor runs, poll the speed button, step the servo one unit
toward `servo_target_ocr` and report RUNNING; when stopped, step the servo
one unit toward the center whenever homing is required or the user is ready
(clearing the homing flag on arrival), then report READY exactly when the
user is ready and the servo is centered, otherwise HOMING_OFF. -/
def tick (s : State) (toggleLine speedLine : Bool) : State :=
  let s1 := handleToggle s toggleLine
  if s1.motor_running then
    let s2 := handleSpeed s1 speedLine
    let s3 :=
      if s2.servo_current_ocr < s2.servo_target_ocr then
        { s2 with servo_current_ocr := s2.servo_current_ocr + 1,
                  ocr1a := s2.servo_current_ocr + 1 }
      else if s2.servo_current_ocr > s2.servo_target_ocr then
        { s2 with servo_current_ocr := s2.servo_current_ocr - 1,
                  ocr1a := s2.servo_current_ocr - 1 }
      else s2
    { s3 with current_spi_status := STATUS_RUNNING }
  else
    let s2 :=
      if s1.servo_homing_required || s1.user_ready_flag then
        if s1.servo_current_ocr < SERVO_CENTER then
          { s1 with servo_current_ocr := s1.servo_current_ocr + 1,
                    ocr1a := s1.servo_current_ocr + 1 }
        else if s1.servo_current_ocr > SERVO_CENTER then
          { s1 with servo_current_ocr := s1.servo_current_ocr - 1,
                    ocr1a := s1.servo_current_ocr - 1 }
        else
          { s1 with servo_homing_required := false }
      else s1
    if s2.user_ready_flag && s2.servo_current_ocr = SERVO_CENTER then
      { s2 with current_spi_status := STATUS_READY }
    else
      { s2 with current_spi_status := STATUS_HOMING_OFF }

/-- State at the top of the main loop after the initialisation in `main`:
globals zero-initialised, servo current and target set to the center and
mirrored into OCR1A, `stop_fan()` executed, user-ready and homing flags
cleared, and the HOMING_OFF status queued as the first SPI reply. -/
def initState : State :=
  let s0 : State :=
    { motor_running := false, speed_level := 0, user_ready_flag := false,
      servo_homing_required := false, servo_current_ocr := SERVO_CENTER,
      servo_target_ocr := SERVO_CENTER, current_spi_status := 0, spdr := 0,
      ocr1a := SERVO_CENTER, ocr3a := 0, com3a1 := false, cs30 := false,
      fan_pwm_pin := false, led_low := false, led_medium := false,
      led_high := false, toggle_button_pressed := false,
      speed_button_pressed := false }
  let s1 := stop_fan s0
  { s1 with user_ready_flag := false, servo_homing_required := false,
            spdr := STATUS_HOMING_OFF }

/-- Iterated main-loop ticks with both button lines released. -/
def tickN (s : State) : Nat → State
  | 0 => s
  | n + 1 => tick (tickN s n) false false

/-- One full press-and-release cycle of the speed button across two
main-loop iterations. -/
def pressCycle (s : State) : State :=
  tick (tick s false true) false false

/-- Iterated speed-button press-and-release cycles. -/
def pressCycleN (s : State) : Nat → State
  | 0 => s
  | n + 1 => pressCycle (pressCycleN s n)

/-- States reachable from start-up under arbitrary interleavings of main-loop
iterations (with arbitrary button lines) and SPI transfers (with arbitrary
command bytes). -/
inductive Reachable : State → Prop where
  | init : Reachable initState
  | tick : ∀ {s : State} (toggleLine speedLine : Bool),
      Reachable s → Reachable (tick s toggleLine speedLine)
  | isr : ∀ {s : State} (b : Nat), Reachable s → Reachable (spiISR s b)

example : DUTY_LOW = 399 := by decide
example : DUTY_MEDIUM = 799 := by decide
example : DUTY_HIGH = 1199 := by decide
example : initState.spdr = 0 ∧ initState.servo_current_ocr = 375 := by decide

/-! Field-preservation lemmas for the helper functions. -/

@[simp] lemma update_leds_motor (s : State) : (update_leds s).motor_running = s.motor_running := by
  unfold update_leds; dsimp only; (repeat' split) <;> rfl

@[simp] lemma update_leds_speed (s : State) : (update_leds s).speed_level = s.speed_level := by
  unfold update_leds; dsimp only; (repeat' split) <;> rfl

@[simp] lemma update_leds_ready (s : State) : (update_leds s).user_ready_flag = s.user_ready_flag := by
  unfold update_leds; dsimp only; (repeat' split) <;> rfl

@[simp] lemma update_leds_homing (s : State) : (update_leds s).servo_homing_required = s.servo_homing_required := by
  unfold update_leds; dsimp only; (repeat' split) <;> rfl

@[simp] lemma update_leds_current (s : State) : (update_leds s).servo_current_ocr = s.servo_current_ocr := by
  unfold update_leds; dsimp only; (repeat' split) <;> rfl

@[simp] lemma update_leds_target (s : State) : (update_leds s).servo_target_ocr = s.servo_target_ocr := by
  unfold update_leds; dsimp only; (repeat' split) <;> rfl

@[simp] lemma update_leds_status (s : State) : (update_leds s).current_spi_status = s.current_spi_status := by
  unfold update_leds; dsimp only; (repeat' split) <;> rfl

@[simp] lemma update_leds_spdr (s : State) : (update_leds s).spdr = s.spdr := by
  unfold update_leds; dsimp only; (repeat' split) <;> rfl

@[simp] lemma update_leds_ocr1a (s : State) : (update_leds s).ocr1a = s.ocr1a := by
  unfold update_leds; dsimp only; (repeat' split) <;> rfl

@[simp] lemma update_leds_ocr3a (s : State) : (update_leds s).ocr3a = s.ocr3a := by
  unfold update_leds; dsimp only; (repeat' split) <;> rfl

@[simp] lemma update_leds_com3a1 (s : State) : (update_leds s).com3a1 = s.com3a1 := by
  unfold update_leds; dsimp only; (repeat' split) <;> rfl

@[simp] lemma update_leds_cs30 (s : State) : (update_leds s).cs30 = s.cs30 := by
  unfold update_leds; dsimp only; (repeat' split) <;> rfl

@[simp] lemma update_leds_pin (s : State) : (update_leds s).fan_pwm_pin = s.fan_pwm_pin := by
  unfold update_leds; dsimp only; (repeat' split) <;> rfl

@[simp] lemma update_leds_tlatch (s : State) : (update_leds s).toggle_button_pressed = s.toggle_button_pressed := by
  unfold update_leds; dsimp only; (repeat' split) <;> rfl

@[simp] lemma update_leds_slatch (s : State) : (update_leds s).speed_button_pressed = s.speed_button_pressed := by
  unfold update_leds; dsimp only; (repeat' split) <;> rfl

@[simp] lemma set_fan_speed_motor (l : Nat) (s : State) : (set_fan_speed l s).motor_running = s.motor_running := by
  unfold set_fan_speed; dsimp only; (repeat' split) <;> simp

@[simp] lemma set_fan_speed_speed (l : Nat) (s : State) : (set_fan_speed l s).speed_level = s.speed_level := by
  unfold set_fan_speed; dsimp only; (repeat' split) <;> simp

@[simp] lemma set_fan_speed_ready (l : Nat) (s : State) : (set_fan_speed l s).user_ready_flag = s.user_ready_flag := by
  unfold set_fan_speed; dsimp only; (repeat' split) <;> simp

@[simp] lemma set_fan_speed_homing (l : Nat) (s : State) : (set_fan_speed l s).servo_homing_required = s.servo_homing_required := by
  unfold set_fan_speed; dsimp only; (repeat' split) <;> simp

@[simp] lemma set_fan_speed_current (l : Nat) (s : State) : (set_fan_speed l s).servo_current_ocr = s.servo_current_ocr := by
  unfold set_fan_speed; dsimp only; (repeat' split) <;> simp

@[simp] lemma set_fan_speed_target (l : Nat) (s : State) : (set_fan_speed l s).servo_target_ocr = s.servo_target_ocr := by
  unfold set_fan_speed; dsimp only; (repeat' split) <;> simp

@[simp] lemma set_fan_speed_status (l : Nat) (s : State) : (set_fan_speed l s).current_spi_status = s.current_spi_status := by
  unfold set_fan_speed; dsimp only; (repeat' split) <;> simp

@[simp] lemma set_fan_speed_spdr (l : Nat) (s : State) : (set_fan_speed l s).spdr = s.spdr := by
  unfold set_fan_speed; dsimp only; (repeat' split) <;> simp

@[simp] lemma set_fan_speed_ocr1a (l : Nat) (s : State) : (set_fan_speed l s).ocr1a = s.ocr1a := by
  unfold set_fan_speed; dsimp only; (repeat' split) <;> simp

@[simp] lemma set_fan_speed_com3a1 (l : Nat) (s : State) : (set_fan_speed l s).com3a1 = s.com3a1 := by
  unfold set_fan_speed; dsimp only; (repeat' split) <;> simp

@[simp] lemma set_fan_speed_cs30 (l : Nat) (s : State) : (set_fan_speed l s).cs30 = s.cs30 := by
  unfold set_fan_speed; dsimp only; (repeat' split) <;> simp

@[simp] lemma set_fan_speed_pin (l : Nat) (s : State) : (set_fan_speed l s).fan_pwm_pin = s.fan_pwm_pin := by
  unfold set_fan_speed; dsimp only; (repeat' split) <;> simp

@[simp] lemma set_fan_speed_tlatch (l : Nat) (s : State) : (set_fan_speed l s).toggle_button_pressed = s.toggle_button_pressed := by
  unfold set_fan_speed; dsimp only; (repeat' split) <;> simp

@[simp] lemma set_fan_speed_slatch (l : Nat) (s : State) : (set_fan_speed l s).speed_button_pressed = s.speed_button_pressed := by
  unfold set_fan_speed; dsimp only; (repeat' split) <;> simp

@[simp] lemma stop_fan_motor (s : State) : (stop_fan s).motor_running = false := by
  simp [stop_fan]

@[simp] lemma stop_fan_speed (s : State) : (stop_fan s).speed_level = 0 := by
  simp [stop_fan]

@[simp] lemma stop_fan_com3a1 (s : State) : (stop_fan s).com3a1 = false := by
  simp [stop_fan]

@[simp] lemma stop_fan_cs30 (s : State) : (stop_fan s).cs30 = false := by
  simp [stop_fan]

@[simp] lemma stop_fan_pin (s : State) : (stop_fan s).fan_pwm_pin = false := by
  simp [stop_fan]

@[simp] lemma stop_fan_ready (s : State) : (stop_fan s).user_ready_flag = s.user_ready_flag := by
  simp [stop_fan]

@[simp] lemma stop_fan_homing (s : State) : (stop_fan s).servo_homing_required = s.servo_homing_required := by
  simp [stop_fan]

@[simp] lemma stop_fan_current (s : State) : (stop_fan s).servo_current_ocr = s.servo_current_ocr := by
  simp [stop_fan]

@[simp] lemma stop_fan_target (s : State) : (stop_fan s).servo_target_ocr = s.servo_target_ocr := by
  simp [stop_fan]

@[simp] lemma stop_fan_status (s : State) : (stop_fan s).current_spi_status = s.current_spi_status := by
  simp [stop_fan]

@[simp] lemma stop_fan_spdr (s : State) : (stop_fan s).spdr = s.spdr := by
  simp [stop_fan]

@[simp] lemma stop_fan_ocr1a (s : State) : (stop_fan s).ocr1a = s.ocr1a := by
  simp [stop_fan]

@[simp] lemma stop_fan_ocr3a (s : State) : (stop_fan s).ocr3a = s.ocr3a := by
  simp [stop_fan]

@[simp] lemma stop_fan_tlatch (s : State) : (stop_fan s).toggle_button_pressed = s.toggle_button_pressed := by
  simp [stop_fan]

@[simp] lemma stop_fan_slatch (s : State) : (stop_fan s).speed_button_pressed = s.speed_button_pressed := by
  simp [stop_fan]

@[simp] lemma start_fan_motor (s : State) : (start_fan s).motor_running = true := by
  simp [start_fan]

@[simp] lemma start_fan_speed (s : State) : (start_fan s).speed_level = 0 := by
  simp [start_fan]

@[simp] lemma start_fan_com3a1 (s : State) : (start_fan s).com3a1 = true := by
  simp [start_fan]

@[simp] lemma start_fan_cs30 (s : State) : (start_fan s).cs30 = true := by
  simp [start_fan]

@[simp] lemma start_fan_ocr3a (s : State) : (start_fan s).ocr3a = DUTY_HIGH := by
  simp [start_fan, set_fan_speed]

@[simp] lemma start_fan_ready (s : State) : (start_fan s).user_ready_flag = s.user_ready_flag := by
  simp [start_fan]

@[simp] lemma start_fan_homing (s : State) : (start_fan s).servo_homing_required = s.servo_homing_required := by
  simp [start_fan]

@[simp] lemma start_fan_current (s : State) : (start_fan s).servo_current_ocr = s.servo_current_ocr := by
  simp [start_fan]

@[simp] lemma start_fan_target (s : State) : (start_fan s).servo_target_ocr = s.servo_target_ocr := by
  simp [start_fan]

@[simp] lemma start_fan_status (s : State) : (start_fan s).current_spi_status = s.current_spi_status := by
  simp [start_fan]

@[simp] lemma start_fan_spdr (s : State) : (start_fan s).spdr = s.spdr := by
  simp [start_fan]

@[simp] lemma start_fan_ocr1a (s : State) : (start_fan s).ocr1a = s.ocr1a := by
  simp [start_fan]

@[simp] lemma start_fan_pin (s : State) : (start_fan s).fan_pwm_pin = s.fan_pwm_pin := by
  simp [start_fan]

@[simp] lemma start_fan_tlatch (s : State) : (start_fan s).toggle_button_pressed = s.toggle_button_pressed := by
  simp [start_fan]

@[simp] lemma start_fan_slatch (s : State) : (start_fan s).speed_button_pressed = s.speed_button_pressed := by
  simp [start_fan]

@[simp] lemma handleSpeed_motor (s : State) (l : Bool) : (handleSpeed s l).motor_running = s.motor_running := by
  unfold handleSpeed; dsimp only; (repeat' split) <;> simp

@[simp] lemma handleSpeed_ready (s : State) (l : Bool) : (handleSpeed s l).user_ready_flag = s.user_ready_flag := by
  unfold handleSpeed; dsimp only; (repeat' split) <;> simp

@[simp] lemma handleSpeed_homing (s : State) (l : Bool) : (handleSpeed s l).servo_homing_required = s.servo_homing_required := by
  unfold handleSpeed; dsimp only; (repeat' split) <;> simp

@[simp] lemma handleSpeed_current (s : State) (l : Bool) : (handleSpeed s l).servo_current_ocr = s.servo_current_ocr := by
  unfold handleSpeed; dsimp only; (repeat' split) <;> simp

@[simp] lemma handleSpeed_target (s : State) (l : Bool) : (handleSpeed s l).servo_target_ocr = s.servo_target_ocr := by
  unfold handleSpeed; dsimp only; (repeat' split) <;> simp

@[simp] lemma handleSpeed_status (s : State) (l : Bool) : (handleSpeed s l).current_spi_status = s.current_spi_status := by
  unfold handleSpeed; dsimp only; (repeat' split) <;> simp

@[simp] lemma handleSpeed_spdr (s : State) (l : Bool) : (handleSpeed s l).spdr = s.spdr := by
  unfold handleSpeed; dsimp only; (repeat' split) <;> simp

@[simp] lemma handleSpeed_ocr1a (s : State) (l : Bool) : (handleSpeed s l).ocr1a = s.ocr1a := by
  unfold handleSpeed; dsimp only; (repeat' split) <;> simp

@[simp] lemma handleSpeed_tlatch (s : State) (l : Bool) : (handleSpeed s l).toggle_button_pressed = s.toggle_button_pressed := by
  unfold handleSpeed; dsimp only; (repeat' split) <;> simp

@[simp] lemma handleSpeed_com3a1 (s : State) (l : Bool) : (handleSpeed s l).com3a1 = s.com3a1 := by
  unfold handleSpeed; dsimp only; (repeat' split) <;> simp

@[simp] lemma handleSpeed_cs30 (s : State) (l : Bool) : (handleSpeed s l).cs30 = s.cs30 := by
  unfold handleSpeed; dsimp only; (repeat' split) <;> simp

@[simp] lemma togglePress_current (s : State) : (togglePress s).servo_current_ocr = s.servo_current_ocr := by
  unfold togglePress; dsimp only; (repeat' split) <;> simp

@[simp] lemma togglePress_status (s : State) : (togglePress s).current_spi_status = s.current_spi_status := by
  unfold togglePress; dsimp only; (repeat' split) <;> simp

@[simp] lemma togglePress_spdr (s : State) : (togglePress s).spdr = s.spdr := by
  unfold togglePress; dsimp only; (repeat' split) <;> simp

@[simp] lemma togglePress_ocr1a (s : State) : (togglePress s).ocr1a = s.ocr1a := by
  unfold togglePress; dsimp only; (repeat' split) <;> simp

@[simp] lemma togglePress_homing (s : State) : (togglePress s).servo_homing_required = true := by
  unfold togglePress; dsimp only; (repeat' split) <;> simp

@[simp] lemma handleToggle_current (s : State) (l : Bool) : (handleToggle s l).servo_current_ocr = s.servo_current_ocr := by
  unfold handleToggle; (repeat' split) <;> simp

@[simp] lemma handleToggle_status (s : State) (l : Bool) : (handleToggle s l).current_spi_status = s.current_spi_status := by
  unfold handleToggle; (repeat' split) <;> simp

@[simp] lemma handleToggle_spdr (s : State) (l : Bool) : (handleToggle s l).spdr = s.spdr := by
  unfold handleToggle; (repeat' split) <;> simp

@[simp] lemma handleToggle_ocr1a (s : State) (l : Bool) : (handleToggle s l).ocr1a = s.ocr1a := by
  unfold handleToggle; (repeat' split) <;> simp

@[simp] lemma spiReceive_status (s : State) (b : Nat) : (spiReceive s b).current_spi_status = s.current_spi_status := by
  unfold spiReceive; dsimp only; (repeat' split) <;> simp

@[simp] lemma spiReceive_spdr (s : State) (b : Nat) : (spiReceive s b).spdr = s.spdr := by
  unfold spiReceive; dsimp only; (repeat' split) <;> simp

@[simp] lemma spiReceive_current (s : State) (b : Nat) : (spiReceive s b).servo_current_ocr = s.servo_current_ocr := by
  unfold spiReceive; dsimp only; (repeat' split) <;> simp

@[simp] lemma spiReceive_ocr1a (s : State) (b : Nat) : (spiReceive s b).ocr1a = s.ocr1a := by
  unfold spiReceive; dsimp only; (repeat' split) <;> simp

@[simp] lemma spiReceive_tlatch (s : State) (b : Nat) : (spiReceive s b).toggle_button_pressed = s.toggle_button_pressed := by
  unfold spiReceive; dsimp only; (repeat' split) <;> simp

@[simp] lemma spiReceive_slatch (s : State) (b : Nat) : (spiReceive s b).speed_button_pressed = s.speed_button_pressed := by
  unfold spiReceive; dsimp only; (repeat' split) <;> simp

/-! Claim theorems. -/

/-- C1: after every main-loop iteration, the reported status is RUNNING (222)
whenever the motor runs; otherwise it is READY (111) exactly when the
user-ready flag is set and the servo current position equals the center
(375); otherwise it is HOMING_OFF (0).  No other status value can result
from a main-loop iteration. -/
theorem c1_status_precedence (s : State) (toggleLine speedLine : Bool) :
    (tick s toggleLine speedLine).current_spi_status =
      if (tick s toggleLine speedLine).motor_running = true then STATUS_RUNNING
      else if (tick s toggleLine speedLine).user_ready_flag = true ∧
              (tick s toggleLine speedLine).servo_current_ocr = SERVO_CENTER then STATUS_READY
      else STATUS_HOMING_OFF := by
  unfold tick; dsimp only; (repeat' split) <;>
    simp_all [STATUS_RUNNING, STATUS_READY, STATUS_HOMING_OFF]

/-- Concrete reachable state: one main-loop iteration from start-up with the
toggle line asserted.  The toggle press turns the system on; the servo is
already centered, so the iteration reports READY (111). -/
def readyState : State := tick initState true false

/-- Concrete reachable state: an SPI transfer carrying START (255) received
in `readyState`; the stored status is READY, so the fan starts. -/
def runningState : State := spiISR readyState 255

example : readyState.current_spi_status = STATUS_READY := by decide
example : runningState.motor_running = true ∧ runningState.user_ready_flag = true := by decide

/-- C2 (counterexample): in the READY state, a START command is processed and
does start the fan, yet the byte queued for the next transfer is still 111
(READY), not 222 — the reply queued on transfer n does not account for the
effects of the command of transfer n, because the interrupt handler copies
`current_spi_status`, which only the main loop recomputes. -/
theorem c2_reply_counterexample :
    (spiISR readyState 255).motor_running = true ∧
    readyState.current_spi_status = STATUS_READY ∧
    (spiISR readyState 255).spdr = STATUS_READY ∧
    (spiISR readyState 255).spdr ≠ STATUS_RUNNING := by
  decide

/-- C2 (amended): after processing an inbound byte, the handler queues as the
next reply the status value computed by the main loop before the command was
applied; the command's own effects are not yet reflected in that reply. -/
theorem c2_reply_is_pre_command_status (s : State) (b : Nat) :
    (spiISR s b).spdr = s.current_spi_status := by
  simp [spiISR]

/-- C3: an ANGLE byte `b` with `10 <= b <= 170` sets the servo target to
`(b-10)*(610-140)/160 + 140` (truncating division) exactly when both the
user-ready flag and the motor-running flag hold at receipt; otherwise the
whole state is unchanged. -/
theorem c3_angle_gating (s : State) (b : Nat) (h1 : 10 ≤ b) (h2 : b ≤ 170) :
    (s.user_ready_flag = true → s.motor_running = true →
       spiReceive s b =
         { s with servo_target_ocr :=
             (b - 10) * (SERVO_CW_MAX - SERVO_CCW_MAX) / 160 + SERVO_CCW_MAX }) ∧
    (¬(s.user_ready_flag = true ∧ s.motor_running = true) → spiReceive s b = s) := by
  have hb200 : ¬b = 200 := by omega
  constructor
  · intro hu hm
    simp [spiReceive, hb200, h1, h2, hu, hm]
  · intro hnot
    have hgate : (s.user_ready_flag && s.motor_running) = false := by
      cases hu : s.user_ready_flag <;> cases hm : s.motor_running <;> simp_all
    simp [spiReceive, hb200, h1, h2, hgate]

/-- C3 (witness): byte 90 while running and ready yields exactly the center
value 375; the same byte in the READY (not running) state changes nothing. -/
theorem c3_angle_gating_witness :
    spiReceive runningState 90 = { runningState with servo_target_ocr := 375 } ∧
    spiReceive readyState 90 = readyState := by
  constructor
  · have h := (c3_angle_gating runningState 90 (by decide) (by decide)).1
      (by decide) (by decide)
    rw [h]; rfl
  · exact (c3_angle_gating readyState 90 (by decide) (by decide)).2 (by decide)

/-- C4: a RESET byte (200), and likewise a debounced toggle press while the
user-ready flag is set, leaves the motor stopped with the fan PWM output
disconnected and its clock stopped, clears the user-ready flag and raises the
homing-required flag — for every prior state in which the PWM output is only
active while the motor runs, regardless of speed level or servo position. -/
theorem c4_reset_effects (s : State)
    (hpwm : s.motor_running = false → s.com3a1 = false ∧ s.cs30 = false) :
    ((spiReceive s 200).motor_running = false ∧
     (spiReceive s 200).user_ready_flag = false ∧
     (spiReceive s 200).servo_homing_required = true ∧
     (spiReceive s 200).com3a1 = false ∧
     (spiReceive s 200).cs30 = false) ∧
    (s.user_ready_flag = true →
       (togglePress s).motor_running = false ∧
       (togglePress s).user_ready_flag = false ∧
       (togglePress s).servo_homing_required = true ∧
       (togglePress s).com3a1 = false ∧
       (togglePress s).cs30 = false) := by
  constructor
  · cases hm : s.motor_running
    · obtain ⟨hc, hk⟩ := hpwm hm
      simp [spiReceive, hm, hc, hk]
    · simp [spiReceive, hm]
  · intro hu
    cases hm : s.motor_running
    · obtain ⟨hc, hk⟩ := hpwm hm
      simp [togglePress, hu, hm, hc, hk]
    · simp [togglePress, hu, hm]

/-- C4 (witness): the reset effects evaluated in the concrete running state,
where both the RESET path and the toggle-off path apply. -/
theorem c4_reset_effects_witness :
    ((spiReceive runningState 200).motor_running = false ∧
     (spiReceive runningState 200).user_ready_flag = false ∧
     (spiReceive runningState 200).servo_homing_required = true ∧
     (spiReceive runningState 200).com3a1 = false ∧
     (spiReceive runningState 200).cs30 = false) ∧
    (runningState.user_ready_flag = true →
       (togglePress runningState).motor_running = false ∧
       (togglePress runningState).user_ready_flag = false ∧
       (togglePress runningState).servo_homing_required = true ∧
       (togglePress runningState).com3a1 = false ∧
       (togglePress runningState).cs30 = false) :=
  c4_reset_effects runningState (by decide)

/-- C5: a START byte (255) starts the fan exactly when the stored status is
READY (111): in that case the handler performs `start_fan`, which sets the
motor-running flag, resets the speed level to 0 and enables the fan PWM
output (COM3A1 and CS30 set) with the level-0 duty value; with any other
stored status the state is unchanged. -/
theorem c5_start_gating (s : State) :
    (s.current_spi_status = STATUS_READY →
       spiReceive s 255 = start_fan s ∧
       (start_fan s).motor_running = true ∧
       (start_fan s).speed_level = 0 ∧
       (start_fan s).com3a1 = true ∧
       (start_fan s).cs30 = true ∧
       (start_fan s).ocr3a = DUTY_HIGH) ∧
    (s.current_spi_status ≠ STATUS_READY → spiReceive s 255 = s) := by
  constructor
  · intro h
    simp [spiReceive, h]
  · intro h
    simp [spiReceive, h]

/-- C5 (witness): START received in the concrete READY state starts the fan. -/
theorem c5_start_gating_witness :
    readyState.current_spi_status = STATUS_READY ∧
    (spiReceive readyState 255 = start_fan readyState ∧
     (start_fan readyState).motor_running = true ∧
     (start_fan readyState).speed_level = 0 ∧
     (start_fan readyState).com3a1 = true ∧
     (start_fan readyState).cs30 = true ∧
     (start_fan readyState).ocr3a = DUTY_HIGH) :=
  ⟨by decide, (c5_start_gating readyState).1 (by decide)⟩

/-- Step policy of the servo positioner: one unit toward the goal per tick. -/
def stepToward (c t : Nat) : Nat :=
  if c < t then c + 1 else if c > t then c - 1 else c

lemma handleToggle_line_false (s : State) :
    handleToggle s false = { s with toggle_button_pressed := false } := by
  simp [handleToggle]

lemma handleSpeed_line_false (s : State) :
    handleSpeed s false = { s with speed_button_pressed := false } := by
  simp [handleSpeed]

lemma tick_run_motor (s : State) (p : Bool) (hm : s.motor_running = true) :
    (tick s false p).motor_running = true := by
  unfold tick
  rw [handleToggle_line_false]
  dsimp only
  split
  · (repeat' split) <;> simp_all
  · next h => exact absurd hm h

lemma tick_run_target (s : State) (p : Bool) (hm : s.motor_running = true) :
    (tick s false p).servo_target_ocr = s.servo_target_ocr := by
  unfold tick
  rw [handleToggle_line_false]
  dsimp only
  split
  · (repeat' split) <;> simp_all
  · next h => exact absurd hm h

lemma tick_run_current (s : State) (p : Bool) (hm : s.motor_running = true) :
    (tick s false p).servo_current_ocr =
      stepToward s.servo_current_ocr s.servo_target_ocr := by
  unfold tick
  rw [handleToggle_line_false]
  dsimp only
  split
  · simp only [handleSpeed_current, handleSpeed_target]
    by_cases h1 : s.servo_current_ocr < s.servo_target_ocr
    · simp [stepToward, h1]
    · by_cases h2 : s.servo_current_ocr > s.servo_target_ocr
      · simp [stepToward, h1, h2]
      · simp [stepToward, h1, h2]
  · next h => exact absurd hm h

lemma stepToward_dist (c t : Nat) :
    Nat.dist (stepToward c t) t = Nat.dist c t - 1 := by
  unfold stepToward Nat.dist
  split
  · omega
  · split <;> omega

lemma tickN_run_spec (s : State) (hm : s.motor_running = true) (n : Nat) :
    (tickN s n).motor_running = true ∧
    (tickN s n).servo_target_ocr = s.servo_target_ocr ∧
    Nat.dist (tickN s n).servo_current_ocr s.servo_target_ocr =
      Nat.dist s.servo_current_ocr s.servo_target_ocr - n := by
  induction n with
  | zero => exact ⟨hm, rfl, rfl⟩
  | succ k ih =>
    obtain ⟨h1, h2, h3⟩ := ih
    refine ⟨tick_run_motor _ _ h1, ?_, ?_⟩
    · show (tick (tickN s k) false false).servo_target_ocr = _
      rw [tick_run_target _ _ h1, h2]
    · show Nat.dist (tick (tickN s k) false false).servo_current_ocr _ = _
      rw [tick_run_current _ _ h1, ← h2, stepToward_dist, h2, h3]
      omega

/-- Concrete idle state whose servo happens to sit at the counter-clockwise
limit 140 (Scenario A of the spec). -/
def idleAt140 : State := { initState with servo_current_ocr := 140, ocr1a := 140 }

/-- Scenario A: the state right after a debounced toggle press in
`idleAt140` — system on, target centered, homing requested, servo at 140. -/
def scenarioA : State := togglePress idleAt140

/-- C6: while the motor runs and no further commands or button presses
arrive, the target never changes and the distance from the servo's current
position to the target shrinks by exactly one unit per main-loop iteration
(so it reaches the target after exactly the initial distance many iterations
and stays there); concretely, after a toggle press from idle with the servo
at 140 and target 375, the status reads HOMING_OFF (0) throughout the first
234 following iterations and READY (111) on iteration 235, when the servo
reaches the center. -/
theorem c6_servo_convergence (s : State) (hm : s.motor_running = true) :
    (∀ n, (tickN s n).servo_target_ocr = s.servo_target_ocr) ∧
    (∀ n, Nat.dist (tickN s n).servo_current_ocr s.servo_target_ocr =
            Nat.dist s.servo_current_ocr s.servo_target_ocr - n) ∧
    (∀ k, k < 235 → (tickN scenarioA k).current_spi_status = STATUS_HOMING_OFF) ∧
    (tickN scenarioA 235).current_spi_status = STATUS_READY ∧
    (tickN scenarioA 235).servo_current_ocr = SERVO_CENTER := by
  refine ⟨fun n => (tickN_run_spec s hm n).2.1, fun n => (tickN_run_spec s hm n).2.2,
          ?_, ?_, ?_⟩
  · decide
  · decide
  · decide

/-- C6 (witness): the convergence facts evaluated in the concrete running
state, three iterations deep. -/
theorem c6_servo_convergence_witness :
    runningState.motor_running = true ∧
    (tickN runningState 3).servo_target_ocr = runningState.servo_target_ocr ∧
    Nat.dist (tickN runningState 3).servo_current_ocr runningState.servo_target_ocr =
      Nat.dist runningState.servo_current_ocr runningState.servo_target_ocr - 3 :=
  ⟨by decide, (c6_servo_convergence runningState (by decide)).1 3,
   (c6_servo_convergence runningState (by decide)).2.1 3⟩

/-- Concrete reachable state: an ANGLE command 170 received while running and
ready, driving the target to the clockwise limit 610. -/
def angleState : State := spiISR runningState 170

/-- Concrete reachable state: a RESET received right after `angleState` — the
fan stops, homing is requested, but the stored target is still 610. -/
def resetState : State := spiISR angleState 200

/-- C7 (counterexample): in the reachable stopped state with homing required
and the stored target still at 610, a main-loop iteration leaves the stored
`servo_target_ocr` at 610 — the iteration never writes the target, so the
target is not "forced to CENTER" as claimed; only the current position is
stepped toward the center. -/
theorem c7_counterexample :
    resetState.motor_running = false ∧
    resetState.servo_homing_required = true ∧
    resetState.servo_target_ocr = 610 ∧
    (tick resetState false false).servo_target_ocr = 610 ∧
    (tick resetState false false).servo_target_ocr ≠ SERVO_CENTER := by
  decide

/-- C7 (amended): on every main-loop iteration while the fan is stopped and
homing is required or the user is ready, the stored target is left unchanged
(the stepping aims at CENTER directly instead of writing the target); the
current position steps one unit toward CENTER while away from it, leaving
the homing flag untouched, and once the current position equals CENTER the
homing flag is cleared (one-shot) with the position unchanged. -/
theorem c7_stopped_homing (s : State) (hm : s.motor_running = false)
    (hc : s.servo_homing_required = true ∨ s.user_ready_flag = true) :
    (tick s false false).servo_target_ocr = s.servo_target_ocr ∧
    (s.servo_current_ocr ≠ SERVO_CENTER →
       Nat.dist (tick s false false).servo_current_ocr SERVO_CENTER =
         Nat.dist s.servo_current_ocr SERVO_CENTER - 1 ∧
       (tick s false false).servo_homing_required = s.servo_homing_required) ∧
    (s.servo_current_ocr = SERVO_CENTER →
       (tick s false false).servo_current_ocr = SERVO_CENTER ∧
       (tick s false false).servo_homing_required = false) := by
  have hc' : (s.servo_homing_required || s.user_ready_flag) = true := by
    rcases hc with h | h <;> simp [h]
  refine ⟨?_, fun hne => ⟨?_, ?_⟩, fun heq => ⟨?_, ?_⟩⟩ <;>
    (unfold tick
     rw [handleToggle_line_false]
     dsimp only
     (repeat' split) <;> simp_all [Nat.dist, SERVO_CENTER] <;> omega)

/-- C7 (witness): the amended homing behaviour evaluated in Scenario A
(stopped, homing required, servo at 140) and in the reachable state with the
servo already centered. -/
theorem c7_stopped_homing_witness :
    scenarioA.motor_running = false ∧
    scenarioA.servo_current_ocr ≠ SERVO_CENTER ∧
    Nat.dist (tick scenarioA false false).servo_current_ocr SERVO_CENTER =
      Nat.dist scenarioA.servo_current_ocr SERVO_CENTER - 1 ∧
    (tick resetState false false).servo_homing_required = false := by
  have h1 := (c7_stopped_homing scenarioA (by decide) (Or.inl (by decide))).2.1 (by decide)
  have h2 := (c7_stopped_homing resetState (by decide) (Or.inl (by decide))).2.2 (by decide)
  exact ⟨by decide, by decide, h1.1, h2.2⟩

/-- Level-to-duty mapping of `set_fan_speed`: level 0 drives the gentlest
output (duty register 60% of the period), level 1 the medium one (40%),
level 2 the strongest (20%); duty control is inverted in hardware. -/
def dutyTable : Nat → Nat
  | 0 => DUTY_HIGH
  | 1 => DUTY_MEDIUM
  | _ => DUTY_LOW

lemma tick_run_speed (s : State) (p : Bool) (hm : s.motor_running = true) :
    (tick s false p).speed_level =
      (handleSpeed { s with toggle_button_pressed := false } p).speed_level := by
  unfold tick
  rw [handleToggle_line_false]
  dsimp only
  split
  · (repeat' split) <;> simp_all
  · next h => exact absurd hm h

lemma tick_run_ocr3a (s : State) (p : Bool) (hm : s.motor_running = true) :
    (tick s false p).ocr3a =
      (handleSpeed { s with toggle_button_pressed := false } p).ocr3a := by
  unfold tick
  rw [handleToggle_line_false]
  dsimp only
  split
  · (repeat' split) <;> simp_all
  · next h => exact absurd hm h

lemma tick_run_slatch (s : State) (p : Bool) (hm : s.motor_running = true) :
    (tick s false p).speed_button_pressed =
      (handleSpeed { s with toggle_button_pressed := false } p).speed_button_pressed := by
  unfold tick
  rw [handleToggle_line_false]
  dsimp only
  split
  · (repeat' split) <;> simp_all
  · next h => exact absurd hm h

lemma pressCycle_spec (s : State) (hm : s.motor_running = true)
    (hl : s.speed_button_pressed = false) :
    (pressCycle s).motor_running = true ∧
    (pressCycle s).speed_button_pressed = false ∧
    (pressCycle s).speed_level =
      (if s.speed_level + 1 > 2 then 0 else s.speed_level + 1) := by
  unfold pressCycle
  have h1 : (tick s false true).motor_running = true := tick_run_motor _ _ hm
  refine ⟨tick_run_motor _ _ h1, ?_, ?_⟩
  · rw [tick_run_slatch _ _ h1, handleSpeed_line_false]
  · rw [tick_run_speed _ _ h1, handleSpeed_line_false]
    dsimp only
    rw [tick_run_speed _ _ hm]
    simp [handleSpeed, hl]

lemma pressCycleN_spec (s : State) (hm : s.motor_running = true)
    (hl : s.speed_button_pressed = false) (hs : s.speed_level ≤ 2) (n : Nat) :
    (pressCycleN s n).motor_running = true ∧
    (pressCycleN s n).speed_button_pressed = false ∧
    (pressCycleN s n).speed_level ≤ 2 ∧
    (pressCycleN s n).speed_level = (s.speed_level + n) % 3 := by
  induction n with
  | zero => exact ⟨hm, hl, hs, by show s.speed_level = _; omega⟩
  | succ k ih =>
    obtain ⟨i1, i2, i3, i4⟩ := ih
    obtain ⟨j1, j2, j3⟩ := pressCycle_spec (pressCycleN s k) i1 i2
    refine ⟨j1, j2, ?_, ?_⟩
    · show (pressCycle (pressCycleN s k)).speed_level ≤ 2
      rw [j3]
      split <;> omega
    · show (pressCycle (pressCycleN s k)).speed_level = _
      rw [j3, i4]
      split <;> omega

/-- C8: while the motor runs, a debounced speed-button press replaces
`speed_level` by `(speed_level + 1) mod 3` and writes the duty value of the
new level, where the duty table maps level 0 to 60% of the 1999-tick period,
level 1 to 40% and level 2 to 20% (each truncated to an integer register
value); consequently repeated press-and-release cycles visit the levels
0, 1, 2, 0, 1, 2, ... in order. -/
theorem c8_speed_cycling (s : State) (hm : s.motor_running = true)
    (hl : s.speed_button_pressed = false) (hs : s.speed_level ≤ 2) :
    (tick s false true).speed_level = (s.speed_level + 1) % 3 ∧
    (tick s false true).ocr3a = dutyTable ((s.speed_level + 1) % 3) ∧
    (dutyTable 0 = ICR_8KHZ * 60 / 100 ∧
     dutyTable 1 = ICR_8KHZ * 40 / 100 ∧
     dutyTable 2 = ICR_8KHZ * 20 / 100) ∧
    (∀ n, (pressCycleN s n).speed_level = (s.speed_level + n) % 3) := by
  have hcase : s.speed_level = 0 ∨ s.speed_level = 1 ∨ s.speed_level = 2 := by omega
  refine ⟨?_, ?_, ⟨by decide, by decide, by decide⟩,
          fun n => (pressCycleN_spec s hm hl hs n).2.2.2⟩
  · rw [tick_run_speed _ _ hm]
    simp [handleSpeed, hl]
    split <;> omega
  · rw [tick_run_ocr3a _ _ hm]
    rcases hcase with h | h | h <;>
      simp [handleSpeed, hl, set_fan_speed, dutyTable, h]

/-- C8 (witness): speed cycling evaluated in the concrete running state
(level 0): one press moves to level 1 with the 40% duty value, and four
press-and-release cycles land on level 1. -/
theorem c8_speed_cycling_witness :
    runningState.speed_level ≤ 2 ∧
    (tick runningState false true).speed_level = (runningState.speed_level + 1) % 3 ∧
    (tick runningState false true).ocr3a = dutyTable ((runningState.speed_level + 1) % 3) ∧
    (pressCycleN runningState 4).speed_level = (runningState.speed_level + 4) % 3 := by
  have h := c8_speed_cycling runningState (by decide) (by decide) (by decide)
  exact ⟨by decide, h.1, h.2.1, h.2.2.2 4⟩

/-- Servo range invariant: both pulse-width values stay within the physical
limits `[SERVO_CCW_MAX, SERVO_CW_MAX] = [140, 610]`. -/
def ServoInv (s : State) : Prop :=
  SERVO_CCW_MAX ≤ s.servo_current_ocr ∧ s.servo_current_ocr ≤ SERVO_CW_MAX ∧
  SERVO_CCW_MAX ≤ s.servo_target_ocr ∧ s.servo_target_ocr ≤ SERVO_CW_MAX

@[simp] lemma ite_field_current (c : Prop) [Decidable c] (a b : State) :
    (if c then a else b).servo_current_ocr =
      if c then a.servo_current_ocr else b.servo_current_ocr := by
  split <;> rfl

@[simp] lemma ite_field_target (c : Prop) [Decidable c] (a b : State) :
    (if c then a else b).servo_target_ocr =
      if c then a.servo_target_ocr else b.servo_target_ocr := by
  split <;> rfl

@[simp] lemma ite_field_motor (c : Prop) [Decidable c] (a b : State) :
    (if c then a else b).motor_running =
      if c then a.motor_running else b.motor_running := by
  split <;> rfl

@[simp] lemma ite_field_speed (c : Prop) [Decidable c] (a b : State) :
    (if c then a else b).speed_level =
      if c then a.speed_level else b.speed_level := by
  split <;> rfl

lemma handleToggle_target_cases (s : State) (t : Bool) :
    (handleToggle s t).servo_target_ocr = s.servo_target_ocr ∨
    (handleToggle s t).servo_target_ocr = SERVO_CENTER := by
  unfold handleToggle togglePress
  by_cases ht : t = true <;> by_cases hl : s.toggle_button_pressed = true <;>
    by_cases hu : s.user_ready_flag = true <;> by_cases hm : s.motor_running = true <;>
      simp [ht, hl, hu, hm]

lemma tick_target_eq (s : State) (t p : Bool) :
    (tick s t p).servo_target_ocr = (handleToggle s t).servo_target_ocr := by
  unfold tick
  dsimp only
  split
  · (repeat' split) <;> simp_all
  · (repeat' split) <;> simp_all

lemma tick_current_cases (s : State) (t p : Bool) :
    (tick s t p).servo_current_ocr = s.servo_current_ocr ∨
    ((tick s t p).servo_current_ocr = s.servo_current_ocr + 1 ∧
       (s.servo_current_ocr < (handleToggle s t).servo_target_ocr ∨
        s.servo_current_ocr < SERVO_CENTER)) ∨
    ((tick s t p).servo_current_ocr = s.servo_current_ocr - 1 ∧
       ((handleToggle s t).servo_target_ocr < s.servo_current_ocr ∨
        SERVO_CENTER < s.servo_current_ocr)) := by
  unfold tick
  dsimp only
  split
  · simp only [handleSpeed_current, handleSpeed_target, handleToggle_current]
    by_cases h1 : s.servo_current_ocr < (handleToggle s t).servo_target_ocr
    · right; left
      exact ⟨by simp [h1], Or.inl h1⟩
    · by_cases h2 : (handleToggle s t).servo_target_ocr < s.servo_current_ocr
      · right; right
        exact ⟨by simp [h1, h2], Or.inl h2⟩
      · left
        simp [h1, h2]
  · simp only [handleToggle_current, ite_field_current, ite_self]
    by_cases hco : ((handleToggle s t).servo_homing_required ||
        (handleToggle s t).user_ready_flag) = true
    · by_cases h1 : s.servo_current_ocr < SERVO_CENTER
      · right; left
        exact ⟨by simp [hco, h1], Or.inr h1⟩
      · by_cases h2 : SERVO_CENTER < s.servo_current_ocr
        · right; right
          exact ⟨by simp [hco, h1, h2], Or.inr h2⟩
        · left
          simp [hco, h1, h2]
    · left
      simp [hco]

lemma tick_ServoInv (s : State) (t p : Bool) (h : ServoInv s) :
    ServoInv (tick s t p) := by
  obtain ⟨h1, h2, h3, h4⟩ := h
  have htc := handleToggle_target_cases s t
  have hcc := tick_current_cases s t p
  have htt := tick_target_eq s t p
  unfold ServoInv
  simp only [SERVO_CCW_MAX, SERVO_CW_MAX, SERVO_CENTER] at *
  rcases htc with he | he <;>
    rcases hcc with hc | ⟨hc, hx | hx⟩ | ⟨hc, hx | hx⟩ <;>
      refine ⟨?_, ?_, ?_, ?_⟩ <;> omega

lemma spiReceive_target_cases (s : State) (b : Nat) :
    (spiReceive s b).servo_target_ocr = s.servo_target_ocr ∨
    ((spiReceive s b).servo_target_ocr =
       (b - 10) * (SERVO_CW_MAX - SERVO_CCW_MAX) / 160 + SERVO_CCW_MAX ∧
     10 ≤ b ∧ b ≤ 170) := by
  unfold spiReceive
  dsimp only
  (repeat' split) <;> simp_all

lemma isr_ServoInv (s : State) (b : Nat) (h : ServoInv s) :
    ServoInv (spiISR s b) := by
  obtain ⟨h1, h2, h3, h4⟩ := h
  have htc := spiReceive_target_cases s b
  have hce : (spiISR s b).servo_current_ocr = s.servo_current_ocr := by simp [spiISR]
  have hte : (spiISR s b).servo_target_ocr = (spiReceive s b).servo_target_ocr := by
    simp [spiISR]
  unfold ServoInv
  simp only [SERVO_CCW_MAX, SERVO_CW_MAX] at *
  rcases htc with he | ⟨he, hb1, hb2⟩ <;> refine ⟨?_, ?_, ?_, ?_⟩ <;> omega

lemma tick_one_unit (s : State) (t p : Bool) :
    (tick s t p).servo_current_ocr ≤ s.servo_current_ocr + 1 ∧
    s.servo_current_ocr ≤ (tick s t p).servo_current_ocr + 1 := by
  have hcc := tick_current_cases s t p
  rcases hcc with hc | ⟨hc, hx⟩ | ⟨hc, hx⟩ <;> refine ⟨?_, ?_⟩ <;> omega

/-- C9: in every state reachable from start-up under arbitrary main-loop
iterations and SPI transfers, the servo's current and target pulse widths
lie within [140, 610]; moreover every single main-loop iteration moves the
current position by at most one unit, and no SPI command moves it at all. -/
theorem c9_servo_invariant :
    (∀ s, Reachable s → ServoInv s) ∧
    (∀ s (t p : Bool),
       (tick s t p).servo_current_ocr ≤ s.servo_current_ocr + 1 ∧
       s.servo_current_ocr ≤ (tick s t p).servo_current_ocr + 1) ∧
    (∀ s (b : Nat), (spiISR s b).servo_current_ocr = s.servo_current_ocr) := by
  refine ⟨?_, tick_one_unit, fun s b => by simp [spiISR]⟩
  intro s h
  induction h with
  | init => exact ⟨by decide, by decide, by decide, by decide⟩
  | tick t p _ ih => exact tick_ServoInv _ t p ih
  | isr b _ ih => exact isr_ServoInv _ b ih

/-- C9 (witness): the invariant and the one-unit bounds evaluated at the
start-up state. -/
theorem c9_servo_invariant_witness :
    ServoInv initState ∧
    ((tick initState false false).servo_current_ocr ≤ initState.servo_current_ocr + 1 ∧
     initState.servo_current_ocr ≤ (tick initState false false).servo_current_ocr + 1) ∧
    (spiISR initState 90).servo_current_ocr = initState.servo_current_ocr :=
  ⟨c9_servo_invariant.1 initState Reachable.init,
   c9_servo_invariant.2.1 initState false false,
   c9_servo_invariant.2.2 initState 90⟩

lemma tick_motor_eq (s : State) (t p : Bool) :
    (tick s t p).motor_running = (handleToggle s t).motor_running := by
  unfold tick
  dsimp only
  by_cases hm1 : (handleToggle s t).motor_running = true <;> simp [hm1]

lemma tick_speed_of_stop (s : State) (t p : Bool)
    (hm1 : ¬(handleToggle s t).motor_running = true) :
    (tick s t p).speed_level = (handleToggle s t).speed_level := by
  unfold tick
  dsimp only
  simp [hm1]

lemma handleToggle_SpeedInv (s : State) (t : Bool)
    (ih : s.motor_running = false → s.speed_level = 0) :
    (handleToggle s t).motor_running = false → (handleToggle s t).speed_level = 0 := by
  unfold handleToggle togglePress
  by_cases ht : t = true <;> by_cases hl : s.toggle_button_pressed = true <;>
    by_cases hu : s.user_ready_flag = true <;> by_cases hm : s.motor_running = true <;>
      simp_all

lemma tick_SpeedInv (s : State) (t p : Bool)
    (ih : s.motor_running = false → s.speed_level = 0) :
    (tick s t p).motor_running = false → (tick s t p).speed_level = 0 := by
  intro h
  rw [tick_motor_eq] at h
  have hm1 : ¬(handleToggle s t).motor_running = true := by simp [h]
  rw [tick_speed_of_stop s t p hm1]
  exact handleToggle_SpeedInv s t ih h

lemma isr_SpeedInv (s : State) (b : Nat)
    (ih : s.motor_running = false → s.speed_level = 0) :
    (spiISR s b).motor_running = false → (spiISR s b).speed_level = 0 := by
  by_cases hb1 : b = 200
  · by_cases hm : s.motor_running = true <;> simp_all [spiISR, spiReceive, hb1]
  · by_cases hb2 : 10 ≤ b ∧ b ≤ 170
    · by_cases hg : (s.user_ready_flag && s.motor_running) = true
      · simp_all [spiISR, spiReceive, hb1, hb2]
      · have he : spiReceive s b = s := by simp [spiReceive, hb1, hb2, hg]
        intro h
        simp only [spiISR, he] at h ⊢
        exact ih h
    · by_cases hb3 : b = 255
      · by_cases hst : s.current_spi_status = STATUS_READY <;>
          simp_all [spiISR, spiReceive, hb1, hb2, hb3]
      · have he : spiReceive s b = s := by simp [spiReceive, hb1, hb2, hb3]
        intro h
        simp only [spiISR, he] at h ⊢
        exact ih h

/-- C10: in every reachable state, a stopped motor implies speed level 0 —
`start_fan` resets the level on every start, `stop_fan` zeroes it on every
stop, and the speed button is polled only while the motor runs. -/
theorem c10_stopped_speed_zero :
    (∀ s, Reachable s → s.motor_running = false → s.speed_level = 0) ∧
    (∀ s, (start_fan s).speed_level = 0) ∧
    (∀ s, (stop_fan s).speed_level = 0) := by
  refine ⟨?_, fun s => by simp, fun s => by simp⟩
  intro s h
  induction h with
  | init => intro _; decide
  | tick t p _ ih => exact tick_SpeedInv _ t p ih
  | isr b _ ih => exact isr_SpeedInv _ b ih

/-- C10 (witness): the invariant evaluated at the start-up state and the two
reset facts at the concrete running state. -/
theorem c10_stopped_speed_zero_witness :
    (initState.motor_running = false → initState.speed_level = 0) ∧
    (start_fan runningState).speed_level = 0 ∧
    (stop_fan runningState).speed_level = 0 :=
  ⟨c10_stopped_speed_zero.1 initState Reachable.init,
   c10_stopped_speed_zero.2.1 runningState,
   c10_stopped_speed_zero.2.2 runningState⟩

end FanCtrl
